import Mathlib

/-!
Verification of the Peanut-GB / RGFW front end (`src/peanut_rgfw.c`) against
its natural-language specification.

The file shallowly embeds the front end's data model and operations:

* `priv_t` mirrors `struct priv_t` (ROM buffer, cartridge-RAM buffer, the
  window reference and the cached screen width).
* `lcd_draw_line` mirrors the scanline callback at lines 107-116: a loop over
  `x < priv->win->r.w` writing `palette[pixels[x] & 3]` at framebuffer index
  `priv->screenWidth * line + x`.  The framebuffer is modelled as a total map
  `Nat → Nat` from 32-bit-pixel indices to pixel values.
* `gb_cart_ram_read` / `gb_cart_ram_write` mirror the cartridge-RAM callbacks
  at lines 36-50.
* `read_rom_to_ram` mirrors lines 55-78, with a small file model (`File`)
  recording the size reported by seeking to the end and the bytes actually
  delivered by `fread`; the embedding additionally counts `malloc`/`free`
  calls so resource claims can be stated.
* `gb_error` mirrors the fatal-error callback at lines 83-101 as a trace of
  its observable effects (diagnostic, frees, process exit).
* `handleEvent` mirrors the per-event input handling at lines 171-201:
  on a key press or release event every joypad line is recomputed from the
  live key state, and the hotkey `switch` on the event's key code emits
  side effects (reset / interlace toggle / frame-skip toggle).
* `loopIteration` mirrors one iteration of the main loop at lines 169-208 at
  the level of its action trace: `RGFW_window_checkEvent` pops AT MOST ONE
  queued event, then `gb_run_frame` runs, then buffers are swapped.
* `mainModel` mirrors the exit paths of `main` (lines 119-215) as a resource
  trace: which buffers are allocated and freed, whether the window is created
  and closed, what is printed and the exit status.
-/

/-- Exit status used by every error path (C `EXIT_FAILURE`). -/
def EXIT_FAILURE : Nat := 1

/-- Exit status of the graceful path (C `EXIT_SUCCESS`). -/
def EXIT_SUCCESS : Nat := 0

/-- Window rectangle, mirroring RGFW's `RGFW_rect` (only the fields the
front end reads). -/
structure RGFW_rect where
  x : Nat
  y : Nat
  w : Nat
  h : Nat
deriving DecidableEq

/-- The window reference held in `priv_t` (only the rectangle is consumed by
the code under verification). -/
structure RGFW_window where
  r : RGFW_rect
deriving DecidableEq

/-- Mirror of `struct priv_t` (lines 11-22): ROM buffer, cartridge-RAM
buffer, window reference and cached screen width. -/
structure priv_t where
  rom : List Nat
  cart_ram : List Nat
  win : RGFW_window
  screenWidth : Nat
deriving DecidableEq

/-- The fixed palette local to `lcd_draw_line` (line 111). -/
def palette : List Nat := [0xFFFFFF, 0xA5A5A5, 0x525252, 0x000000]

/-- The per-pixel colour computation `palette[pixels[x] & 3]` (line 114). -/
def pixelColor (v : Nat) : Nat := palette.getD (v &&& 3) 0

/-- Single store into the framebuffer map. -/
def store (buf : Nat → Nat) (i v : Nat) : Nat → Nat :=
  fun j => if j = i then v else buf j

/-- The loop body of `lcd_draw_line` run for `x = 0, …, n-1`: after `n`
iterations the buffer holds `pixelColor (pixels x)` at index
`sw * line + x` for each `x < n`. -/
def lcdLoopAux (sw : Nat) (pixels : Nat → Nat) (line : Nat) (buf : Nat → Nat) :
    Nat → Nat → Nat
  | 0 => buf
  | n + 1 => store (lcdLoopAux sw pixels line buf n) (sw * line + n)
      (pixelColor (pixels n))

/-- Mirror of `lcd_draw_line` (lines 107-116): loop `x` from `0` up to (but
excluding) `priv->win->r.w`, storing `palette[pixels[x] & 3]` at buffer index
`priv->screenWidth * line + x`. -/
def lcd_draw_line (p : priv_t) (buf : Nat → Nat) (pixels : Nat → Nat)
    (line : Nat) : Nat → Nat :=
  lcdLoopAux p.screenWidth pixels line buf p.win.r.w

theorem lcdLoopAux_hit (sw : Nat) (pixels : Nat → Nat) (line : Nat)
    (buf : Nat → Nat) (n x : Nat) (hx : x < n) :
    lcdLoopAux sw pixels line buf n (sw * line + x) = pixelColor (pixels x) := by
  induction n with
  | zero => omega
  | succ m ih =>
      by_cases hxm : x = m
      · subst hxm
        simp [lcdLoopAux, store]
      · have hlt : x < m := by omega
        have hne : sw * line + x ≠ sw * line + m := by omega
        simp only [lcdLoopAux, store, if_neg hne]
        exact ih hlt

theorem lcdLoopAux_miss (sw : Nat) (pixels : Nat → Nat) (line : Nat)
    (buf : Nat → Nat) (n i : Nat)
    (hi : i < sw * line ∨ sw * line + n ≤ i) :
    lcdLoopAux sw pixels line buf n i = buf i := by
  induction n with
  | zero => rfl
  | succ m ih =>
      have hne : i ≠ sw * line + m := by omega
      have hi' : i < sw * line ∨ sw * line + m ≤ i := by omega
      simp only [lcdLoopAux, store, if_neg hne]
      exact ih hi'

/-- Concrete device context for exercising `lcd_draw_line`: the window is 1
pixel wide while the physical screen is 2 pixels wide. -/
def pC1 : priv_t :=
  { rom := [], cart_ram := [], win := { r := { x := 0, y := 0, w := 1, h := 1 } },
    screenWidth := 2 }

/-- A framebuffer holding 42 everywhere. -/
def buf42 : Nat → Nat := fun _ => 42

/-- A source pixel row holding 1 everywhere. -/
def pix1 : Nat → Nat := fun _ => 1

/-- C1 counterexample: with a window 1 pixel wide and a physical screen 2
pixels wide, column `x = 1` lies in `[0, displayWidth)` yet the renderer does
not store a pixel at framebuffer offset `displayWidth * line + 1`: the
original buffer value 42 (not a palette colour) survives there.  The loop
bound is the window width `win.r.w`, not the cached display width. -/
theorem C1_counterexample :
    lcd_draw_line pC1 buf42 pix1 0 (pC1.screenWidth * 0 + 1) = 42 ∧
    1 < pC1.screenWidth := by
  constructor
  · rfl
  · decide

/-- C1 (amended): for every scanline-callback invocation, the columns written
are exactly `[0, w)` where `w = priv->win->r.w` is the window rectangle's
width, each such column `x` receives the 32-bit pixel
`palette[pixels[x] & 3]` at framebuffer offset `screenWidth * line + x` —
so the row stride is the cached display width `screenWidth` — and every
framebuffer index outside `[screenWidth * line, screenWidth * line + w)` is
left unchanged. -/
theorem C1_stride_and_columns (p : priv_t) (buf pixels : Nat → Nat)
    (line : Nat) :
    (∀ x, x < p.win.r.w →
      lcd_draw_line p buf pixels line (p.screenWidth * line + x)
        = pixelColor (pixels x)) ∧
    (∀ i, i < p.screenWidth * line ∨ p.screenWidth * line + p.win.r.w ≤ i →
      lcd_draw_line p buf pixels line i = buf i) := by
  constructor
  · intro x hx
    exact lcdLoopAux_hit p.screenWidth pixels line buf p.win.r.w x hx
  · intro i hi
    exact lcdLoopAux_miss p.screenWidth pixels line buf p.win.r.w i hi

/-- C1 witness: instantiating the amended theorem on the concrete device
context: column 0 is written with the palette colour of pixel value 1, and
the framebuffer index 5 (beyond the written row segment) keeps its old
value 42. -/
theorem C1_stride_and_columns_witness :
    lcd_draw_line pC1 buf42 pix1 0 (pC1.screenWidth * 0 + 0) = 0xA5A5A5 ∧
    lcd_draw_line pC1 buf42 pix1 0 5 = 42 := by
  have h := C1_stride_and_columns pC1 buf42 pix1 0
  constructor
  · have h0 := h.1 0 (by decide)
    rw [h0]
    rfl
  · have h5 := h.2 5 (by decide)
    rw [h5]
    rfl

/-- C2: the colour stored for a source pixel value `v` is determined solely
by `v &&& 3` (the high bits are irrelevant), the four residues 0, 1, 2, 3 map
in order to white `0xFFFFFF`, light gray `0xA5A5A5`, dark gray `0x525252`
and black `0x000000`, and the computed colour is always one of those four. -/
theorem C2_palette_map (v : Nat) :
    pixelColor v = pixelColor (v &&& 3) ∧
    pixelColor 0 = 0xFFFFFF ∧ pixelColor 1 = 0xA5A5A5 ∧
    pixelColor 2 = 0x525252 ∧ pixelColor 3 = 0x000000 ∧
    (pixelColor v = 0xFFFFFF ∨ pixelColor v = 0xA5A5A5 ∨
      pixelColor v = 0x525252 ∨ pixelColor v = 0x000000) := by
  have hle : v &&& 3 ≤ 3 := Nat.and_le_right
  refine ⟨?_, rfl, rfl, rfl, rfl, ?_⟩
  · unfold pixelColor
    rw [Nat.and_assoc]
    rfl
  · unfold pixelColor
    generalize hg : v &&& 3 = k at hle
    interval_cases k <;> simp [palette]

/-- The host key codes consumed by the front end (the fixed physical
bindings `RGFW_z`, `RGFW_x`, `RGFW_BackSpace`, `RGFW_Return`, the four
arrows, and the hotkeys `RGFW_r`, `RGFW_i`, `RGFW_o`); `other n` stands for
any further RGFW key code. -/
inductive RGFW_key where
  | z
  | x
  | backSpace
  | enter
  | right
  | left
  | up
  | down
  | r
  | i
  | o
  | other (n : Nat)
deriving DecidableEq

/-- The event kinds the main loop's `switch` distinguishes: key pressed, key
released, and everything else. -/
inductive EventType where
  | keyPressed
  | keyReleased
  | other (n : Nat)
deriving DecidableEq

/-- A host event as consumed at lines 171 and 184: its type and key code. -/
structure RGFW_event where
  type : EventType
  keyCode : RGFW_key
deriving DecidableEq

/-- Mirror of `gb.direct.joypad_bits` as consumed at lines 175-182: eight
active-low lines, `true` = 1 = released, `false` = 0 = pressed. -/
structure joypad_bits_t where
  a : Bool
  b : Bool
  select : Bool
  start : Bool
  right : Bool
  left : Bool
  up : Bool
  down : Bool
deriving DecidableEq

/-- Side effects the hotkey `switch` (lines 184-200) issues to the emulation
core: `gb_reset`, interlace-flag complement, frame-skip-flag complement. -/
inductive Effect where
  | reset
  | interlaceToggle
  | frameSkipToggle
deriving DecidableEq

/-- Mirror of the event handling at lines 171-201: on a `keyPressed` or
`keyReleased` event all eight joypad lines are reassigned from the live key
state (`!RGFW_isPressedI`), and the nested `switch` on the event's key code
emits the matching hotkey effect; any other event type leaves the joypad
state untouched and emits nothing. -/
def handleEvent (pressed : RGFW_key → Bool) (ev : RGFW_event)
    (jp : joypad_bits_t) : joypad_bits_t × List Effect :=
  match ev.type with
  | EventType.keyPressed | EventType.keyReleased =>
      let jp' : joypad_bits_t :=
        { a := !pressed RGFW_key.z
          b := !pressed RGFW_key.x
          select := !pressed RGFW_key.backSpace
          start := !pressed RGFW_key.enter
          right := !pressed RGFW_key.right
          left := !pressed RGFW_key.left
          up := !pressed RGFW_key.up
          down := !pressed RGFW_key.down }
      let effs : List Effect :=
        match ev.keyCode with
        | RGFW_key.r => [Effect.reset]
        | RGFW_key.i => [Effect.interlaceToggle]
        | RGFW_key.o => [Effect.frameSkipToggle]
        | _ => []
      (jp', effs)
  | EventType.other _ => (jp, [])

/-- C3: on every key-state event (press or release, of any key) the eight
joypad lines are all recomputed from the current host key state — each line
is the negation of its binding's pressed state — independently of whatever
joypad state was left by previous events: no line retains a stale value. -/
theorem C3_full_recompute (pressed : RGFW_key → Bool) (ev : RGFW_event)
    (jp : joypad_bits_t)
    (h : ev.type = EventType.keyPressed ∨ ev.type = EventType.keyReleased) :
    (handleEvent pressed ev jp).1 =
      { a := !pressed RGFW_key.z
        b := !pressed RGFW_key.x
        select := !pressed RGFW_key.backSpace
        start := !pressed RGFW_key.enter
        right := !pressed RGFW_key.right
        left := !pressed RGFW_key.left
        up := !pressed RGFW_key.up
        down := !pressed RGFW_key.down } := by
  rcases ev with ⟨t, k⟩
  rcases h with h | h <;> subst h <;> rfl

/-- Sample key state: only `z` is held down. -/
def pressedZ : RGFW_key → Bool :=
  fun k => match k with
  | RGFW_key.z => true
  | _ => false

/-- Sample stale joypad state: every line reads 0 (pressed). -/
def jpStale : joypad_bits_t :=
  { a := false, b := false, select := false, start := false,
    right := false, left := false, up := false, down := false }

/-- C3 witness: a release event of an unrelated key while only `z` is held,
starting from an all-stale joypad state, yields `a = 0` and every other line
`= 1`. -/
theorem C3_full_recompute_witness :
    (handleEvent pressedZ
        { type := EventType.keyReleased, keyCode := RGFW_key.other 99 }
        jpStale).1 =
      { a := false, b := true, select := true, start := true,
        right := true, left := true, up := true, down := true } := by
  have h := C3_full_recompute pressedZ
    { type := EventType.keyReleased, keyCode := RGFW_key.other 99 }
    jpStale (Or.inr rfl)
  rw [h]
  decide

/-- All-released joypad state, the state before any event. -/
def jpInit : joypad_bits_t :=
  { a := true, b := true, select := true, start := true,
    right := true, left := true, up := true, down := true }

/-- C4 counterexample: the hotkey `switch` runs on `keyReleased` events as
well — a release event of the reset binding (with no key held any more)
still issues a reset to the core, contradicting the claim that the reset
path does not fire on the key's release event. -/
theorem C4_counterexample :
    (handleEvent (fun _ => false)
        { type := EventType.keyReleased, keyCode := RGFW_key.r }
        jpInit).2 = [Effect.reset] := rfl

/-- C4 (amended): each hotkey side effect is issued exactly once per
PROCESSED key-state event whose key code is the hotkey — on press events and
equally on release events — and never on other events; so holding the reset
binding for one press/release cycle fires the reset path twice (once on the
press event, once on the release event), not continuously while held. -/
theorem C4_hotkey_per_event (pressed : RGFW_key → Bool) (ev : RGFW_event)
    (jp : joypad_bits_t) :
    ((handleEvent pressed ev jp).2.count Effect.reset =
      if (ev.type = EventType.keyPressed ∨ ev.type = EventType.keyReleased)
          ∧ ev.keyCode = RGFW_key.r then 1 else 0) ∧
    ((handleEvent pressed ev jp).2.count Effect.interlaceToggle =
      if (ev.type = EventType.keyPressed ∨ ev.type = EventType.keyReleased)
          ∧ ev.keyCode = RGFW_key.i then 1 else 0) ∧
    ((handleEvent pressed ev jp).2.count Effect.frameSkipToggle =
      if (ev.type = EventType.keyPressed ∨ ev.type = EventType.keyReleased)
          ∧ ev.keyCode = RGFW_key.o then 1 else 0) := by
  rcases ev with ⟨t, k⟩
  rcases t with _ | _ | n <;> rcases k <;> simp [handleEvent]

/-- One observable action of a main-loop iteration: processing of one popped
host event, the blocking `gb_run_frame` call, or the buffer swap that
presents the frame. -/
inductive LoopAction where
  | processEvent (ev : RGFW_event)
  | runFrame
  | present
deriving DecidableEq

/-- Mirror of one iteration of the main loop (lines 169-208) at the level of
its action trace: `if (RGFW_window_checkEvent(priv.win))` pops AT MOST ONE
event off the queue and handles it, then `gb_run_frame(&gb)` runs, then
`RGFW_window_swapBuffers` presents; the remaining queue carries over to the
next iteration. -/
def loopIteration (queue : List RGFW_event) : List LoopAction × List RGFW_event :=
  match queue with
  | [] => ([LoopAction.runFrame, LoopAction.present], [])
  | ev :: rest => ([LoopAction.processEvent ev, LoopAction.runFrame, LoopAction.present], rest)

/-- Sample pending events: a `z` press followed by an `x` press. -/
def evZ : RGFW_event := { type := EventType.keyPressed, keyCode := RGFW_key.z }

/-- Second sample pending event. -/
def evX : RGFW_event := { type := EventType.keyPressed, keyCode := RGFW_key.x }

/-- C6 counterexample: with two key events pending since the last iteration,
the iteration runs `gb_run_frame` with the second event still sitting
unprocessed in the queue — it is neither handled before the frame runs nor
anywhere in this iteration's trace, refuting that every pending event is
drained before the frame is executed. -/
theorem C6_counterexample :
    (loopIteration [evZ, evX]).2 = [evX] ∧
    LoopAction.processEvent evX ∉ (loopIteration [evZ, evX]).1 := by
  constructor
  · rfl
  · decide

/-- C6 (amended): each Running-state iteration pops at most one pending host
event — the oldest — and, when one is present, handles it before invoking
the core's run-one-frame operation, which completes before the framebuffer
is presented; all further pending events remain queued for later
iterations. -/
theorem C6_one_event_then_frame (queue : List RGFW_event) :
    (loopIteration queue).1 =
      (queue.take (min 1 queue.length)).map LoopAction.processEvent ++
        [LoopAction.runFrame, LoopAction.present] ∧
    (loopIteration queue).2 = queue.drop (min 1 queue.length) := by
  cases queue with
  | nil => exact ⟨rfl, rfl⟩
  | cons ev rest =>
      have h1 : min 1 (rest.length + 1) = 1 := by omega
      simp [loopIteration, h1]

/-- Mirror of `gb_rom_read` (lines 27-31): `p->rom[addr]`. -/
def gb_rom_read (p : priv_t) (addr : Nat) : Nat :=
  p.rom.getD addr 0

/-- Mirror of `gb_cart_ram_read` (lines 36-40): `p->cart_ram[addr]`, no
bounds check of its own. -/
def gb_cart_ram_read (p : priv_t) (addr : Nat) : Nat :=
  p.cart_ram.getD addr 0

/-- Mirror of `gb_cart_ram_write` (lines 45-50): `p->cart_ram[addr] = val`,
no bounds check of its own; no other field of the device context is
touched. -/
def gb_cart_ram_write (p : priv_t) (addr : Nat) (val : Nat) : priv_t :=
  { p with cart_ram := p.cart_ram.set addr val }

/-- C10: for every address below the allocated save-RAM size (the buffer's
length, which `main` sizes by `gb_get_save_size`), the read callback returns
the byte currently stored at that index, the write callback stores its byte
argument at that index, every other byte of the buffer reads back unchanged,
and the remaining device-context fields — image buffer, window reference,
cached display width — and the buffer's length are untouched. -/
theorem C10_ram_callbacks (p : priv_t) (addr val : Nat)
    (h : addr < p.cart_ram.length) :
    gb_cart_ram_read p addr = p.cart_ram.get ⟨addr, h⟩ ∧
    gb_cart_ram_read (gb_cart_ram_write p addr val) addr = val ∧
    (∀ i, i ≠ addr →
      gb_cart_ram_read (gb_cart_ram_write p addr val) i = gb_cart_ram_read p i) ∧
    (gb_cart_ram_write p addr val).rom = p.rom ∧
    (gb_cart_ram_write p addr val).win = p.win ∧
    (gb_cart_ram_write p addr val).screenWidth = p.screenWidth ∧
    (gb_cart_ram_write p addr val).cart_ram.length = p.cart_ram.length := by
  refine ⟨?_, ?_, ?_, rfl, rfl, rfl, by simp [gb_cart_ram_write]⟩
  · exact List.getD_eq_get p.cart_ram 0 h
  · have hlen : addr < (p.cart_ram.set addr val).length := by
      simpa using h
    rw [gb_cart_ram_write, gb_cart_ram_read]
    rw [List.getD_eq_get (p.cart_ram.set addr val) 0 hlen]
    simp
  · intro i hi
    rw [gb_cart_ram_write, gb_cart_ram_read, gb_cart_ram_read]
    by_cases hil : i < p.cart_ram.length
    · have hil' : i < (p.cart_ram.set addr val).length := by simpa using hil
      rw [List.getD_eq_get (p.cart_ram.set addr val) 0 hil',
        List.getD_eq_get p.cart_ram 0 hil]
      simp [List.getElem_set_of_ne (by omega : addr ≠ i)]
    · have hge : p.cart_ram.length ≤ i := by omega
      have hge' : (p.cart_ram.set addr val).length ≤ i := by simpa using hge
      rw [List.getD_eq_default (p.cart_ram.set addr val) 0 hge',
        List.getD_eq_default p.cart_ram 0 hge]

/-- Concrete device context for exercising the save-RAM callbacks. -/
def pRam : priv_t :=
  { rom := [1, 2], cart_ram := [10, 20, 30],
    win := { r := { x := 0, y := 0, w := 160, h := 144 } }, screenWidth := 640 }

/-- C10 witness: on a 3-byte save RAM, reading address 1 yields the stored
byte 20, and after writing 77 at address 1 the read-back yields 77 while
address 2 still reads 30 and the other fields are unchanged. -/
theorem C10_ram_callbacks_witness :
    gb_cart_ram_read pRam 1 = 20 ∧
    gb_cart_ram_read (gb_cart_ram_write pRam 1 77) 1 = 77 ∧
    gb_cart_ram_read (gb_cart_ram_write pRam 1 77) 2 = 30 ∧
    (gb_cart_ram_write pRam 1 77).screenWidth = 640 := by
  have h := C10_ram_callbacks pRam 1 77 (by decide)
  refine ⟨?_, h.2.1, ?_, ?_⟩
  · rw [h.1]
    rfl
  · have h2 := h.2.2.1 2 (by decide)
    rw [h2]
    rfl
  · rw [h.2.2.2.2.2.1]
    rfl

/-- Model of a host file as seen through the C stdio calls in
`read_rom_to_ram`: `size` is what `ftell` reports after seeking to the end,
and `avail` are the bytes `fread` can actually deliver from the start (for a
well-behaved regular file `avail.length = size`; a short read is
`avail.length < size`). -/
structure File where
  size : Nat
  avail : List Nat
deriving DecidableEq

/-- Mirror of `read_rom_to_ram` (lines 55-78).  The input is `none` when
`fopen` fails.  The result carries the returned buffer (`none` for the NULL
returns) together with the number of `malloc` and `free` calls performed, so
the leak-freedom part of the contract is visible in the model:
`fopen` failure returns NULL before any allocation; otherwise a buffer of
`rom_size = ftell` bytes is allocated, `fread` delivers
`min rom_size avail.length` bytes, and on a short read the buffer is freed
before NULL is returned. -/
def read_rom_to_ram (file : Option File) : Option (List Nat) × Nat × Nat :=
  match file with
  | none => (none, 0, 0)
  | some f =>
      let rom_size := f.size
      let readBytes := f.avail.take rom_size
      if readBytes.length ≠ rom_size then
        (none, 1, 1)
      else
        (some readBytes, 1, 0)

/-- C7: the image load is all-or-nothing.  If the path cannot be opened it
returns NULL with no allocation performed; every buffer it does return has
exactly `size` bytes (the file length reported by seeking to the end); a
fully readable file is returned whole; and on every failure return the
number of frees equals the number of allocations, so no allocation leaks. -/
theorem C7_all_or_nothing (file : Option File) :
    (file = none → read_rom_to_ram file = (none, 0, 0)) ∧
    (∀ f buf, file = some f → (read_rom_to_ram file).1 = some buf →
      buf.length = f.size) ∧
    (∀ f, file = some f → f.avail.length = f.size →
      (read_rom_to_ram file).1 = some f.avail) ∧
    ((read_rom_to_ram file).1 = none →
      (read_rom_to_ram file).2.1 = (read_rom_to_ram file).2.2) := by
  refine ⟨?_, ?_, ?_, ?_⟩
  · intro h
    subst h
    rfl
  · intro f buf hf hbuf
    subst hf
    by_cases hlen : (f.avail.take f.size).length ≠ f.size
    · rw [read_rom_to_ram] at hbuf
      simp only [if_pos hlen] at hbuf
      exact Option.noConfusion hbuf
    · rw [read_rom_to_ram] at hbuf
      simp only [if_neg hlen] at hbuf
      rw [← Option.some_inj.mp hbuf]
      exact not_ne_iff.mp hlen
  · intro f hf hall
    subst hf
    have hlen : (f.avail.take f.size).length = f.size := by
      simp [hall]
    rw [read_rom_to_ram]
    simp only [if_neg (not_ne_iff.mpr hlen)]
    show some (f.avail.take f.size) = some f.avail
    rw [List.take_of_length_le (le_of_eq hall)]
  · intro hnone
    rcases file with _ | f
    · rfl
    · rw [read_rom_to_ram] at hnone ⊢
      by_cases hlen : (f.avail.take f.size).length ≠ f.size
      · simp only [if_pos hlen]
      · simp only [if_neg hlen] at hnone
        exact Option.noConfusion hnone
    
/-- A well-behaved 2-byte file. -/
def fOk : File := { size := 2, avail := [7, 9] }

/-- A file reporting 3 bytes of which only 1 can be read. -/
def fShort : File := { size := 3, avail := [5] }

/-- C7 witness: instantiating the contract — `fopen` failure allocates
nothing, the 2-byte file loads whole, and the short-read file's failure path
balances its single `malloc` with a `free`. -/
theorem C7_all_or_nothing_witness :
    read_rom_to_ram none = (none, 0, 0) ∧
    (read_rom_to_ram (some fOk)).1 = some [7, 9] ∧
    (read_rom_to_ram (some fShort)).2.1 = (read_rom_to_ram (some fShort)).2.2 := by
  refine ⟨(C7_all_or_nothing none).1 rfl, ?_, ?_⟩
  · have h := (C7_all_or_nothing (some fOk)).2.2.1 fOk rfl (by decide)
    rw [h]
    rfl
  · exact (C7_all_or_nothing (some fShort)).2.2.2 (by decide)

/-- The diagnostic strings of `gb_error` (lines 85-91), indexed by the error
code, one per error kind up to `GB_INVALID_MAX = 5`. -/
def gb_err_str : List String :=
  ["UNKNOWN", "INVALID OPCODE", "INVALID READ", "INVALID WRITE", "HALT FOREVER"]

/-- Observable behaviour of the fatal-error callback: the diagnostic it
prints (error code, kind string and 16-bit value), how many times each owned
buffer is freed, whether the window is released, and how the process
terminates. -/
structure ErrorTrace where
  diagKind : Nat
  diagMsg : String
  diagVal : Nat
  ramFrees : Nat
  romFrees : Nat
  windowReleased : Bool
  terminated : Bool
  exitCode : Nat
deriving DecidableEq

/-- Mirror of `gb_error` (lines 83-101): print the error code, its name from
`gb_err_str` and the offending value, free `priv->cart_ram` and `priv->rom`
once each, and `exit(EXIT_FAILURE)` — the window is never touched and the
function never returns. -/
def gb_error (gb_err : Nat) (val : Nat) : ErrorTrace :=
  { diagKind := gb_err
    diagMsg := gb_err_str.getD gb_err ""
    diagVal := val
    ramFrees := 1
    romFrees := 1
    windowReleased := false
    terminated := true
    exitCode := EXIT_FAILURE }

/-- C9: for each of the five error kinds, the fatal-error handler never
returns to its caller: it terminates the process with the failure status
after printing the error code, the kind's diagnostic string and the value
involved, and it frees the persistent-RAM buffer and the image buffer
exactly once each while deliberately not releasing the display surface. -/
theorem C9_fatal_handler (gb_err val : Nat) (h : gb_err < 5) :
    (gb_error gb_err val).terminated = true ∧
    (gb_error gb_err val).exitCode = EXIT_FAILURE ∧
    (gb_error gb_err val).diagKind = gb_err ∧
    (gb_error gb_err val).diagVal = val ∧
    (gb_error gb_err val).diagMsg = gb_err_str.get ⟨gb_err, h⟩ ∧
    (gb_error gb_err val).ramFrees = 1 ∧
    (gb_error gb_err val).romFrees = 1 ∧
    (gb_error gb_err val).windowReleased = false := by
  refine ⟨rfl, rfl, rfl, rfl, ?_, rfl, rfl, rfl⟩
  show gb_err_str.getD gb_err "" = gb_err_str.get ⟨gb_err, h⟩
  exact List.getD_eq_get gb_err_str "" h

/-- C9 witness: an invalid-opcode fault (kind 1) at address `0xC000`
terminates with the failure status, names the kind, and frees both buffers
once without touching the window. -/
theorem C9_fatal_handler_witness :
    (gb_error 1 49152).terminated = true ∧
    (gb_error 1 49152).diagMsg = "INVALID OPCODE" ∧
    (gb_error 1 49152).ramFrees = 1 ∧
    (gb_error 1 49152).romFrees = 1 ∧
    (gb_error 1 49152).windowReleased = false := by
  have h := C9_fatal_handler 1 49152 (by decide)
  exact ⟨h.1, h.2.2.2.2.1.trans rfl, h.2.2.2.2.2.1, h.2.2.2.2.2.2.1,
    h.2.2.2.2.2.2.2⟩

/-- Resource/exit trace of one run of `main`: whether the window was created
and closed, whether the usage line went to standard error, how many times
the image (ROM) and persistent-RAM buffers were allocated and freed, and how
the process ended. -/
structure MainTrace where
  windowCreated : Bool
  windowClosed : Bool
  usageToStderr : Bool
  romAllocs : Nat
  romFrees : Nat
  ramAllocs : Nat
  ramFrees : Nat
  exitCode : Nat
deriving DecidableEq

/-- Mirror of the exit paths of `main` (lines 119-215).  Inputs: the
argument count, the ROM file as seen by `read_rom_to_ram`, whether `gb_init`
returns `GB_INIT_NO_ERROR`, and whether a fatal core error occurs during
some `gb_run_frame` before the window is closed.  Control flow follows the
source: the window is created first (line 127); `argc != 2` prints usage and
exits (lines 132-141); a NULL ROM load prints `strerror` and exits (lines
144-148); a failed `gb_init` prints the code and exits WITHOUT freeing the
loaded ROM (lines 154-158); then the save RAM is allocated (line 160) and
the loop runs — a fatal error ends the process through `gb_error` (frees
both buffers, window left open), and a window-close request leaves the loop,
closes the window, frees both buffers and returns success (lines 210-214). -/
def mainModel (argc : Nat) (file : Option File) (initOk : Bool)
    (fatal : Bool) : MainTrace :=
  if argc ≠ 2 then
    { windowCreated := true, windowClosed := false, usageToStderr := true,
      romAllocs := 0, romFrees := 0, ramAllocs := 0, ramFrees := 0,
      exitCode := EXIT_FAILURE }
  else
    match read_rom_to_ram file with
    | (none, allocs, frees) =>
        { windowCreated := true, windowClosed := false, usageToStderr := false,
          romAllocs := allocs, romFrees := frees, ramAllocs := 0, ramFrees := 0,
          exitCode := EXIT_FAILURE }
    | (some _, allocs, frees) =>
        if !initOk then
          { windowCreated := true, windowClosed := false,
            usageToStderr := false,
            romAllocs := allocs, romFrees := frees, ramAllocs := 0,
            ramFrees := 0, exitCode := EXIT_FAILURE }
        else if fatal then
          { windowCreated := true, windowClosed := false,
            usageToStderr := false,
            romAllocs := allocs, romFrees := frees + 1, ramAllocs := 1,
            ramFrees := 1, exitCode := EXIT_FAILURE }
        else
          { windowCreated := true, windowClosed := true,
            usageToStderr := false,
            romAllocs := allocs, romFrees := frees + 1, ramAllocs := 1,
            ramFrees := 1, exitCode := EXIT_SUCCESS }

/-- A valid 1-byte ROM file for exercising `main`'s paths. -/
def fRom : File := { size := 1, avail := [7] }

/-- C5: on the initialization-error exit path (`gb_init` returns an error
for a successfully loaded image), `main` prints the code and exits while the
image buffer is still allocated: one allocation, zero frees — the image is
NOT released on this exit path, contrary to the stated resource law and to
`read_rom_to_ram`'s own "Must be freed" contract. -/
theorem C5_init_error_leak :
    (mainModel 2 (some fRom) false false).romAllocs = 1 ∧
    (mainModel 2 (some fRom) false false).romFrees = 0 ∧
    (mainModel 2 (some fRom) false false).exitCode = EXIT_FAILURE := by
  decide

/-- C8 counterexample: invoked with zero positional arguments (`argc = 1`)
the process does print usage to standard error and exit with failure, but
the window has already been created (line 127 precedes the `argc` check at
line 132) and is never closed on this path — refuting "no window is created
or left open on the argument-error path". -/
theorem C8_counterexample :
    (mainModel 1 none false false).windowCreated = true ∧
    (mainModel 1 none false false).windowClosed = false := by
  decide

/-- C8 (amended): for every invocation with an argument count other than
exactly one positional argument, a usage message is printed to standard
error and the process exits with the failure status before the image or
persistent-RAM buffers are allocated; however the window has already been
created before the argument check and is left open (never closed) on this
path. -/
theorem C8_usage_path (argc : Nat) (file : Option File) (initOk fatal : Bool)
    (h : argc ≠ 2) :
    (mainModel argc file initOk fatal).usageToStderr = true ∧
    (mainModel argc file initOk fatal).exitCode = EXIT_FAILURE ∧
    (mainModel argc file initOk fatal).romAllocs = 0 ∧
    (mainModel argc file initOk fatal).ramAllocs = 0 ∧
    (mainModel argc file initOk fatal).windowCreated = true ∧
    (mainModel argc file initOk fatal).windowClosed = false := by
  rw [mainModel, if_pos h]
  exact ⟨rfl, rfl, rfl, rfl, rfl, rfl⟩

/-- C8 witness: with three arguments (`argc = 3`, two positional arguments)
and any file, usage goes to standard error, the exit status is the failure
status, nothing is allocated, and the already-created window stays open. -/
theorem C8_usage_path_witness :
    (mainModel 3 (some fRom) true false).usageToStderr = true ∧
    (mainModel 3 (some fRom) true false).exitCode = EXIT_FAILURE ∧
    (mainModel 3 (some fRom) true false).romAllocs = 0 ∧
    (mainModel 3 (some fRom) true false).ramAllocs = 0 ∧
    (mainModel 3 (some fRom) true false).windowCreated = true ∧
    (mainModel 3 (some fRom) true false).windowClosed = false :=
  C8_usage_path 3 (some fRom) true false (by decide)
